import Mathlib

set_option maxRecDepth 16384

/-!
Verification development for the question-cache core of the FastAPI Python
quiz application (`main.py`): the validator `es_pregunta_valida`, the
generation pipeline `generar_pregunta`, the bounded question cache
(`queue.Queue(maxsize=CACHE_SIZE)`), the replenisher loop
`precargar_preguntas`, the retrieval operation
`obtener_pregunta_cache_async`, and the bounded retry loops in the
`/quiz` route handlers.

Python values are modelled shallowly: JSON values as an inductive type,
Python dicts produced by the code as a record of the keys the code ever
touches (absent key = `none`), the queue as a list of records, and the
background loop as a per-iteration state transformer.
-/

/-- A JSON value, as produced by `json.loads`. -/
inductive ValorJson where
  | null : ValorJson
  | bool (b : Bool) : ValorJson
  | num (n : Int) : ValorJson
  | str (s : String) : ValorJson
  | arr (xs : List ValorJson) : ValorJson
  | obj (kvs : List (String × ValorJson)) : ValorJson

/-- Python truthiness (`bool(x)`) of a JSON value: `None`, `False`, `0`,
`""`, `[]` and the empty dict are falsy, everything else is truthy. -/
def ValorJson.truthy : ValorJson → Bool
  | .null => false
  | .bool b => b
  | .num n => n != 0
  | .str s => s != ""
  | .arr xs => !xs.isEmpty
  | .obj kvs => !kvs.isEmpty

/-- JSON whitespace characters skipped by the decoder. -/
def esEspacio (c : Char) : Bool :=
  c = ' ' ∨ c = '\t' ∨ c = '\n' ∨ c = '\r'

/-- Drop leading JSON whitespace. -/
def skipWs : List Char → List Char
  | [] => []
  | c :: cs => if esEspacio c then skipWs cs else c :: cs

/-- Value of a hexadecimal digit. -/
def hexVal (c : Char) : Option Nat :=
  if '0' ≤ c ∧ c ≤ '9' then some (c.toNat - 48)
  else if 'a' ≤ c ∧ c ≤ 'f' then some (c.toNat - 87)
  else if 'A' ≤ c ∧ c ≤ 'F' then some (c.toNat - 55)
  else none

/-- Single-character JSON string escapes. -/
def escChar (e : Char) : Option Char :=
  if e = '"' then some '"'
  else if e = '\\' then some '\\'
  else if e = '/' then some '/'
  else if e = 'b' then some (Char.ofNat 8)
  else if e = 'f' then some (Char.ofNat 12)
  else if e = 'n' then some '\n'
  else if e = 'r' then some '\r'
  else if e = 't' then some '\t'
  else none

/-- Body of a JSON string after the opening quote, with escapes; returns
the decoded string and the remaining input. Fuel bounds the recursion. -/
def parseStringBody : Nat → List Char → Option (String × List Char)
  | 0, _ => none
  | _, [] => none
  | fuel + 1, c :: cs =>
    if c = '"' then some ("", cs)
    else if c = '\\' then
      match cs with
      | [] => none
      | e :: cs2 =>
        if e = 'u' then
          match cs2 with
          | h1 :: h2 :: h3 :: h4 :: rest =>
            match hexVal h1, hexVal h2, hexVal h3, hexVal h4 with
            | some a, some b, some c2, some d =>
              match parseStringBody fuel rest with
              | some (s, rem) =>
                some (String.mk (Char.ofNat (((a * 16 + b) * 16 + c2) * 16 + d) :: s.toList), rem)
              | none => none
            | _, _, _, _ => none
          | _ => none
        else
          match escChar e with
          | some ch =>
            match parseStringBody fuel cs2 with
            | some (s, rem) => some (String.mk (ch :: s.toList), rem)
            | none => none
          | none => none
    else
      match parseStringBody fuel cs with
      | some (s, rem) => some (String.mk (c :: s.toList), rem)
      | none => none

/-- Longest leading run of decimal digits, plus the rest. -/
def spanDigits : List Char → List Char × List Char
  | [] => ([], [])
  | c :: cs =>
    if c.isDigit then
      let p := spanDigits cs
      (c :: p.1, p.2)
    else ([], c :: cs)

/-- Decimal digits to a natural number. -/
def digitosANat (ds : List Char) : Nat :=
  ds.foldl (fun acc c => acc * 10 + (c.toNat - 48)) 0

/-- Would the next character continue a float/exponent literal?
(Non-integral JSON numbers are outside the modelled fragment.) -/
def esFloatChar : List Char → Bool
  | [] => false
  | c :: _ => c = '.' ∨ c = 'e' ∨ c = 'E'

/-- Parse a JSON integer literal (optionally negative). -/
def parseNumber (cs : List Char) : Option (ValorJson × List Char) :=
  match cs with
  | '-' :: rest =>
    let p := spanDigits rest
    if p.1.isEmpty then none
    else if esFloatChar p.2 then none
    else some (ValorJson.num (-(digitosANat p.1 : Int)), p.2)
  | _ =>
    let p := spanDigits cs
    if p.1.isEmpty then none
    else if esFloatChar p.2 then none
    else some (ValorJson.num (digitosANat p.1), p.2)

mutual

/-- Parse one JSON value; fuel bounds the recursion depth. Models the
fragment of `json.loads` this application can meet (objects, arrays,
strings with escapes, integers, literals); non-integral numbers are
rejected rather than parsed. -/
def parseValue : Nat → List Char → Option (ValorJson × List Char)
  | 0, _ => none
  | fuel + 1, cs =>
    match skipWs cs with
    | [] => none
    | c :: cs1 =>
      if c = '"' then
        match parseStringBody (cs1.length + 1) cs1 with
        | some (s, rem) => some (ValorJson.str s, rem)
        | none => none
      else if c = '{' then
        match skipWs cs1 with
        | '}' :: rest => some (ValorJson.obj [], rest)
        | cs2 =>
          match parseMembers fuel cs2 with
          | some (kvs, rem) => some (ValorJson.obj kvs, rem)
          | none => none
      else if c = '[' then
        match skipWs cs1 with
        | ']' :: rest => some (ValorJson.arr [], rest)
        | cs2 =>
          match parseItems fuel cs2 with
          | some (xs, rem) => some (ValorJson.arr xs, rem)
          | none => none
      else if c = 't' then
        match cs1 with
        | 'r' :: 'u' :: 'e' :: rest => some (ValorJson.bool true, rest)
        | _ => none
      else if c = 'f' then
        match cs1 with
        | 'a' :: 'l' :: 's' :: 'e' :: rest => some (ValorJson.bool false, rest)
        | _ => none
      else if c = 'n' then
        match cs1 with
        | 'u' :: 'l' :: 'l' :: rest => some (ValorJson.null, rest)
        | _ => none
      else if c = '-' ∨ c.isDigit then parseNumber (c :: cs1)
      else none

/-- Members of a JSON object after a first non-`}` character was seen. -/
def parseMembers : Nat → List Char → Option (List (String × ValorJson) × List Char)
  | 0, _ => none
  | fuel + 1, cs =>
    match skipWs cs with
    | '"' :: cs1 =>
      match parseStringBody (cs1.length + 1) cs1 with
      | none => none
      | some (k, rest) =>
        match skipWs rest with
        | ':' :: rest1 =>
          match parseValue fuel rest1 with
          | none => none
          | some (v, rest2) =>
            match skipWs rest2 with
            | ',' :: more =>
              match parseMembers fuel more with
              | some (kvs, rem) => some ((k, v) :: kvs, rem)
              | none => none
            | '}' :: more => some ([(k, v)], more)
            | _ => none
        | _ => none
    | _ => none

/-- Items of a JSON array after a first non-`]` character was seen. -/
def parseItems : Nat → List Char → Option (List ValorJson × List Char)
  | 0, _ => none
  | fuel + 1, cs =>
    match parseValue fuel cs with
    | none => none
    | some (v, rest) =>
      match skipWs rest with
      | ',' :: more =>
        match parseItems fuel more with
        | some (xs, rem) => some (v :: xs, rem)
        | none => none
      | ']' :: more => some ([v], more)
      | _ => none

end

/-- `json.loads`: parse a full document, allowing trailing whitespace
only. -/
def parsearJson (s : String) : Option ValorJson :=
  match parseValue (s.length + 1) s.toList with
  | some (v, rest) => if skipWs rest = [] then some v else none
  | none => none

/-- `dict.get` on the parsed object. `json.loads` keeps the last
occurrence of a duplicated key, hence the left fold. -/
def jget (kvs : List (String × ValorJson)) (k : String) : Option ValorJson :=
  kvs.foldl (fun acc kv => if kv.1 == k then some kv.2 else acc) none

/-!
## Data model: the dicts the application builds and inspects

`generar_pregunta` builds either a question dict (keys `pregunta`,
`codigo`, `respuestas`, `respuesta_correcta`, `explicacion`) or an error
dict (keys `error`, `detalle`, `texto`). `es_pregunta_valida` receives
arbitrary Python objects. A candidate is therefore either a non-dict or
a record of the keys the code ever reads; an absent key is `none`.
-/

/-- The keys of a candidate dict that the application ever reads. -/
structure Campos where
  error : Option String
  pregunta : Option ValorJson
  codigo : Option ValorJson
  respuestas : Option ValorJson
  respuesta_correcta : Option ValorJson
  explicacion : Option ValorJson
  detalle : Option String
  texto : Option String

/-- A candidate value handed to the validator: a dict, or anything
else (`isinstance(pregunta, dict)` fails). -/
inductive Candidato where
  | noDict : Candidato
  | dict : Campos → Candidato

/-- Truthiness of a field fetched from the dict: an absent key or a
falsy value both fail `pregunta[campo]`-style checks. -/
def campoTruthy : Option ValorJson → Bool
  | none => false
  | some v => v.truthy

/-- Final check of `es_pregunta_valida`:
`isinstance(pregunta['respuestas'], list) and len(...) == 4`. -/
def respuestasListaDe4 : Option ValorJson → Bool
  | some (ValorJson.arr l) => l.length == 4
  | _ => false

/-- `es_pregunta_valida` (main.py lines 138-152): false for non-dicts,
for dicts with an `error` key, for any absent/falsy required field, and
for `respuestas` that is not a list of exactly 4 entries. -/
def es_pregunta_valida : Candidato → Bool
  | Candidato.noDict => false
  | Candidato.dict c =>
    if c.error.isSome then false
    else if !campoTruthy c.pregunta then false
    else if !campoTruthy c.codigo then false
    else if !campoTruthy c.respuestas then false
    else if !campoTruthy c.respuesta_correcta then false
    else respuestasListaDe4 c.respuestas

/-- Does the candidate carry the error marker (`'error' in pregunta`)? -/
def tiene_error : Candidato → Bool
  | Candidato.noDict => false
  | Candidato.dict c => c.error.isSome

/-- The error dicts returned by `generar_pregunta` on its failure
paths: `{"error": ..., "detalle": ..., "texto": ...}`. -/
def errorPregunta (mensaje detalle texto : String) : Candidato :=
  Candidato.dict ⟨some mensaje, none, none, none, none, none, some detalle, some texto⟩

/-!
## Python string primitives

The corresponding `String` library functions use well-founded recursion
and do not evaluate definitionally, so the Python operations the code
uses (`strip`, `startswith`, `endswith`, `split`, `in`) are modelled by
structurally recursive functions on character lists.
-/

/-- Is `c` one of the ASCII whitespace characters `str.strip()`
removes? (Unicode whitespace is outside the modelled fragment.) -/
def esEspacioPy (c : Char) : Bool :=
  c = ' ' ∨ c = '\t' ∨ c = '\n' ∨ c = '\r' ∨ c = '\x0b' ∨ c = '\x0c'

/-- Drop leading Python whitespace. -/
def quitarEspaciosIzq : List Char → List Char
  | [] => []
  | c :: cs => if esEspacioPy c then quitarEspaciosIzq cs else c :: cs

/-- Python `s.strip()`. -/
def pyStrip (s : String) : String :=
  String.mk ((quitarEspaciosIzq ((quitarEspaciosIzq s.toList).reverse)).reverse)

/-- Is the first list a prefix of the second? -/
def listaEmpiezaCon : List Char → List Char → Bool
  | [], _ => true
  | _ :: _, [] => false
  | p :: ps, c :: cs => p = c && listaEmpiezaCon ps cs

/-- Python `s.startswith(pre)`. -/
def pyStartsWith (s pre : String) : Bool :=
  listaEmpiezaCon pre.toList s.toList

/-- Python `s.endswith(suf)`. -/
def pyEndsWith (s suf : String) : Bool :=
  listaEmpiezaCon suf.toList.reverse s.toList.reverse

/-- Python `s.split(",")` on character lists: maximal split, keeping
empty pieces. -/
def separarComas : List Char → List (List Char)
  | [] => [[]]
  | c :: cs =>
    if c = ',' then [] :: separarComas cs
    else
      match separarComas cs with
      | h :: t => (c :: h) :: t
      | [] => [[c]]

/-- Python `s.split(",")`. -/
def pySplitComas (s : String) : List String :=
  (separarComas s.toList).map String.mk

/-- Substring containment (Python `pat in s`), i.e. `pat` is a prefix
of some suffix. -/
def listaContiene (pat : List Char) : List Char → Bool
  | [] => pat.isEmpty
  | c :: cs => listaEmpiezaCon pat (c :: cs) || listaContiene pat cs

/-!
## The generation pipeline (`generar_pregunta`, main.py lines 157-193)

The upstream call itself is external; the pipeline is modelled as a
function of the raw completion text `response.text`. A transport-level
exception raised by the client is outside this function (the caller
sees a raised error; see the replenisher model below).
-/

/-- Markdown-fence stripping applied to the stripped completion text.
Python slicing `text[7:]`, `text[3:]`, `text[:-3]` counts code points,
as do `String.drop` and `String.dropRight`. -/
def limpiar_fences (t0 : String) : String :=
  let t1 := if pyStartsWith t0 "```json" then t0.drop 7 else t0
  let t2 := if pyStartsWith t1 "```" then t1.drop 3 else t1
  if pyEndsWith t2 "```" then t2.dropRight 3 else t2

/-- Normalisation of the `Respuestas` field: a comma-joined string is
split and each piece stripped; a list is kept; anything else becomes
the empty list. -/
def extraer_respuestas : Option ValorJson → ValorJson
  | some (ValorJson.str s) => ValorJson.arr ((pySplitComas s).map (fun r => ValorJson.str (pyStrip r)))
  | some (ValorJson.arr l) => ValorJson.arr l
  | _ => ValorJson.arr []

/-- The question dict built from a parsed JSON object
(`Explicacion` defaults to the empty string). -/
def campos_de (kvs : List (String × ValorJson)) : Campos :=
  ⟨none,
   jget kvs "Pregunta",
   jget kvs "Codigo",
   some (extraer_respuestas (jget kvs "Respuestas")),
   jget kvs "Respuesta correcta",
   some ((jget kvs "Explicacion").getD (ValorJson.str "")),
   none, none⟩

/-- Tail of `generar_pregunta` once a JSON object was parsed: build the
dict, self-validate, and degrade to an error dict when invalid. -/
def construir_pregunta (kvs : List (String × ValorJson)) (t : String) : Candidato :=
  if es_pregunta_valida (Candidato.dict (campos_de kvs)) then Candidato.dict (campos_de kvs)
  else errorPregunta "Pregunta inválida o incompleta" "Faltan campos o formato incorrecto" t

/-- `generar_pregunta` as a function of the raw completion text: strip,
remove fences, parse JSON, normalise, self-validate. A non-object parse
result makes the subsequent `.get` raise, landing in the same `except`
branch as a decode failure (the `detalle` there is the exception's
`str(e)`, modelled as a fixed string). -/
def generar_pregunta (texto_api : String) : Candidato :=
  let t := limpiar_fences (pyStrip texto_api)
  match parsearJson t with
  | some (ValorJson.obj kvs) => construir_pregunta kvs t
  | some _ => errorPregunta "No se pudo extraer el JSON" "el valor JSON no es un objeto" texto_api
  | none => errorPregunta "No se pudo extraer el JSON" "fallo de json.loads" texto_api

/-!
## The bounded cache (`pregunta_cache = queue.Queue(maxsize=CACHE_SIZE)`)

Modelled at the state level as the list of resident records, oldest
first. `queue.Queue.put` with default arguments blocks while the queue
is full; a blocked call has no completed next state, hence `Option`.
-/

def CACHE_SIZE : Nat := 200

def CACHE_MIN : Nat := 100

/-- `pregunta_cache.put(x)` (blocking): appends when below capacity;
`none` means the call blocks (it does not complete, discards nothing,
evicts nothing). -/
def cache_put (q : List Candidato) (x : Candidato) : Option (List Candidato) :=
  if q.length < CACHE_SIZE then some (q ++ [x]) else none

/-- The cache state after an insertion attempt: a blocked `put` has
inserted nothing, so the resident records are unchanged. -/
def put_intento (q : List Candidato) (x : Candidato) : List Candidato :=
  match cache_put q x with
  | some q2 => q2
  | none => q

/-- Follows the spec's words (§4.3): `try_put(record) -> bool` is
non-blocking; it succeeds unless the queue is at capacity, in which
case it fails silently and the caller proceeds. Written here only to be
compared against the code's blocking `cache_put`. -/
def try_put_spec (q : List Candidato) (x : Candidato) : List Candidato × Bool :=
  if q.length < CACHE_SIZE then (q ++ [x], true) else (q, false)

/-!
## The replenisher loop (`precargar_preguntas`, main.py lines 198-218)
-/

/-- Outcome of the `generar_pregunta()` call inside the loop's `try`:
either it returns a candidate (possibly an error dict), or the upstream
client raises an exception whose `str(e)` is the given message. -/
inductive ResultadoGen where
  | retorna : Candidato → ResultadoGen
  | excepcion : String → ResultadoGen

/-- Does the failure message contain the quota-exhaustion marker
(Python `"RESOURCE_EXHAUSTED" in str(e)`)? -/
def contiene_marcador (msg : String) : Bool :=
  listaContiene "RESOURCE_EXHAUSTED".toList msg.toList

/-- Effect of one replenisher iteration: the cache afterwards (`none`
when the iteration blocked inside `put` and has no completed state) and
the `time.sleep` duration it then performs. -/
structure EfectoIteracion where
  cache : Option (List Candidato)
  dormir : Nat

/-- One iteration of `precargar_preguntas`: below the low-water mark it
generates, validates, inserts via the blocking `put`, and sleeps 5; a
raised generation failure sleeps 35 when the message contains
`RESOURCE_EXHAUSTED` and 5 otherwise; at or above the mark it sleeps 2.
A blocked `put` never reaches its `time.sleep(5)`, so the effect then
is `⟨none, 0⟩`. -/
def precargar_iteracion (q : List Candidato) (g : ResultadoGen) : EfectoIteracion :=
  if q.length < CACHE_MIN then
    match g with
    | ResultadoGen.retorna p =>
      if es_pregunta_valida p then
        match cache_put q p with
        | some q2 => ⟨some q2, 5⟩
        | none => ⟨none, 0⟩
      else ⟨some q, 5⟩
    | ResultadoGen.excepcion msg =>
      ⟨some q, if contiene_marcador msg then 35 else 5⟩
  else ⟨some q, 2⟩

/-!
## The retrieval operation (`obtener_pregunta_cache_async`, lines 223-236)

`tomado = some p` models a cache take that delivered `p` within the
10-unit timeout; `tomado = none` models a timeout (or any other raise in
the `try`). `texto_api` is the raw completion text the upstream service
returns for the synchronous fallback call, when one is made.
-/

/-- `obtener_pregunta_cache_async`: return the taken record when valid;
otherwise fall back to a direct `generar_pregunta()` call whose result
is returned unchecked. -/
def obtener_pregunta_cache_async (tomado : Option Candidato) (texto_api : String) : Candidato :=
  match tomado with
  | some p => if es_pregunta_valida p then p else generar_pregunta texto_api
  | none => generar_pregunta texto_api

/-!
## The callers' retry loop (`quiz_get` lines 302-314 / 324-334,
`quiz_post` lines 357-368 / 389-400)

The handlers all run

    intentos = 0
    while not es_pregunta_valida(p) and intentos < 10:
        await asyncio.sleep(2)
        p = await obtener_pregunta_cache_async()
        intentos += 1
    if not es_pregunta_valida(p): redirect to /error

after an initial obtain. `siguiente i` is the record delivered by the
retry obtain performed when `intentos = i`; the loop state carries the
current record, `intentos`, and the seconds slept so far. The fuel
equals `10 - intentos`, so it never cuts the loop short.
-/

/-- The while loop of the quiz handlers. -/
def bucle_reintentos : Nat → Candidato → (Nat → Candidato) → Nat → Nat → Candidato × Nat × Nat
  | 0, p, _, intentos, dormido => (p, intentos, dormido)
  | fuel + 1, p, siguiente, intentos, dormido =>
    if es_pregunta_valida p = false ∧ intentos < 10 then
      bucle_reintentos fuel (siguiente intentos) siguiente (intentos + 1) (dormido + 2)
    else (p, intentos, dormido)

/-- Initial obtain followed by the bounded retry loop. -/
def obtener_con_reintentos (primera : Candidato) (siguiente : Nat → Candidato) : Candidato × Nat × Nat :=
  bucle_reintentos 10 primera siguiente 0 0

/-- Total number of `obtener_pregunta_cache_async` invocations the
handler performs: the initial one plus one per loop iteration. -/
def llamadas_totales (primera : Candidato) (siguiente : Nat → Candidato) : Nat :=
  1 + (obtener_con_reintentos primera siguiente).2.1

/-- Seconds spent in `asyncio.sleep(2)` pauses by the retry loop. -/
def dormido_total (primera : Candidato) (siguiente : Nat → Candidato) : Nat :=
  (obtener_con_reintentos primera siguiente).2.2

/-- What the handler does after the loop. -/
inductive RespuestaQuiz where
  | pagina : Candidato → RespuestaQuiz
  | redireccion_error : RespuestaQuiz

/-- After the loop: render the question when valid, redirect to the
`/error` page otherwise. -/
def resultado_quiz (primera : Candidato) (siguiente : Nat → Candidato) : RespuestaQuiz :=
  if es_pregunta_valida (obtener_con_reintentos primera siguiente).1 then
    RespuestaQuiz.pagina (obtener_con_reintentos primera siguiente).1
  else RespuestaQuiz.redireccion_error

/-!
## Concrete records and texts used by the example theorems
-/

/-- The end-to-end example completion text from the spec (§8): a fenced
JSON object. -/
def texto_ejemplo : String :=
  "```json\n\x7b\"Pregunta\":\"Q\",\"Codigo\":\"c\",\"Respuestas\":[\"1\",\"2\",\"3\",\"4\"],\"Respuesta correcta\":\"2\",\"Explicacion\":\"e\"\x7d\n```"

/-- The record the example text parses to. -/
def pregunta_ejemplo : Campos :=
  ⟨none, some (ValorJson.str "Q"), some (ValorJson.str "c"),
   some (ValorJson.arr [ValorJson.str "1", ValorJson.str "2", ValorJson.str "3", ValorJson.str "4"]),
   some (ValorJson.str "2"), some (ValorJson.str "e"), none, none⟩

/-- An unfenced well-formed completion text. -/
def texto_valido : String :=
  "\x7b\"Pregunta\":\"P\",\"Codigo\":\"k\",\"Respuestas\":[\"a\",\"b\",\"c\",\"d\"],\"Respuesta correcta\":\"a\",\"Explicacion\":\"x\"\x7d"

/-- A structurally invalid record: one of the error dicts the generator
produces. -/
def preguntaInvalida : Candidato :=
  errorPregunta "No se pudo extraer el JSON" "fallo de json.loads" "hola"

/-- A validator-approved record, used to populate cache states. -/
def registroEjemplo : Candidato := Candidato.dict pregunta_ejemplo

/-- A record the validator accepts although its `respuesta_correcta`
matches no entry of `respuestas`, even after trimming. -/
def camposSinMembresia : Campos :=
  ⟨none, some (ValorJson.str "¿Qué imprime?"), some (ValorJson.str "print(1)"),
   some (ValorJson.arr [ValorJson.str "a", ValorJson.str "b", ValorJson.str "c", ValorJson.str "d"]),
   some (ValorJson.str "z"), some (ValorJson.str ""), none, none⟩

/-- Follows the spec's words (§3): the accepted record's
`correct_answer` must equal one element of `answer_options` after
trimming surrounding whitespace on both sides. Written here only to be
compared against what `es_pregunta_valida` actually checks. -/
def respuesta_en_opciones (c : Campos) : Bool :=
  match c.respuesta_correcta, c.respuestas with
  | some (ValorJson.str rc), some (ValorJson.arr ops) =>
    ops.any (fun o =>
      match o with
      | ValorJson.str s => pyStrip s == pyStrip rc
      | _ => false)
  | _, _ => false

/-!
## Helper lemmas
-/

/-- The validator's if-chain on a dict, as one boolean conjunction. -/
theorem es_pregunta_valida_dict (c : Campos) :
    es_pregunta_valida (Candidato.dict c) =
      (!c.error.isSome && campoTruthy c.pregunta && campoTruthy c.codigo &&
       campoTruthy c.respuestas && campoTruthy c.respuesta_correcta &&
       respuestasListaDe4 c.respuestas) := by
  cases he : c.error.isSome <;>
    cases hp : campoTruthy c.pregunta <;>
      cases hc : campoTruthy c.codigo <;>
        cases hr : campoTruthy c.respuestas <;>
          cases hrc : campoTruthy c.respuesta_correcta <;>
            simp [es_pregunta_valida, he, hp, hc, hr, hrc]

/-- The final list-shape check, characterised. -/
theorem respuestasListaDe4_iff (r : Option ValorJson) :
    respuestasListaDe4 r = true ↔ ∃ l, r = some (ValorJson.arr l) ∧ l.length = 4 := by
  cases r with
  | none => simp [respuestasListaDe4]
  | some v => cases v <;> simp [respuestasListaDe4]

/-- A list of exactly 4 entries is truthy. -/
theorem campoTruthy_arr_cuatro (l : List ValorJson) (h : l.length = 4) :
    campoTruthy (some (ValorJson.arr l)) = true := by
  cases l with
  | nil => simp at h
  | cons a t => simp [campoTruthy, ValorJson.truthy]

/-- The tail of the generator self-validates: its result is
validator-approved or carries the error marker. -/
theorem construir_valida_o_error (kvs : List (String × ValorJson)) (t : String) :
    es_pregunta_valida (construir_pregunta kvs t) = true ∨
      tiene_error (construir_pregunta kvs t) = true := by
  unfold construir_pregunta
  by_cases h : es_pregunta_valida (Candidato.dict (campos_de kvs)) = true
  · left; simp [h]
  · right; simp [h, errorPregunta, tiene_error]

/-- Every result of the generation pipeline is validator-approved or
carries the error marker. -/
theorem generar_valida_o_error (texto_api : String) :
    es_pregunta_valida (generar_pregunta texto_api) = true ∨
      tiene_error (generar_pregunta texto_api) = true := by
  simp only [generar_pregunta]
  cases hp : parsearJson (limpiar_fences (pyStrip texto_api)) with
  | none => right; rfl
  | some v =>
    cases v with
    | obj kvs => exact construir_valida_o_error kvs _
    | null => right; rfl
    | bool b => right; rfl
    | num n => right; rfl
    | str s => right; rfl
    | arr xs => right; rfl

/-- One insertion attempt never pushes the cache above capacity. -/
theorem put_intento_longitud (q : List Candidato) (x : Candidato) (h : q.length ≤ CACHE_SIZE) :
    (put_intento q x).length ≤ CACHE_SIZE := by
  unfold put_intento cache_put
  by_cases hlt : q.length < CACHE_SIZE
  · rw [if_pos hlt]
    simp
    omega
  · rw [if_neg hlt]
    exact h

/-- Any sequence of insertion attempts keeps the cache within
capacity. -/
theorem foldl_put_intento (xs : List Candidato) :
    ∀ q : List Candidato, q.length ≤ CACHE_SIZE →
      (List.foldl put_intento q xs).length ≤ CACHE_SIZE := by
  induction xs with
  | nil => intro q h; simpa
  | cons x t ih =>
    intro q h
    simp only [List.foldl_cons]
    exact ih _ (put_intento_longitud q x h)

/-- When the current record and every retried record are invalid, the
quiz retry loop runs its full budget: it stops with `intentos = 10`,
has slept 2 units per iteration, and still holds an invalid record.
The fuel is `10 - intentos`, matching the handlers' entry state. -/
theorem bucle_todo_invalido (fuel : Nat) :
    ∀ (p : Candidato) (s : Nat → Candidato) (i d : Nat),
      es_pregunta_valida p = false → (∀ j, es_pregunta_valida (s j) = false) →
      i + fuel = 10 →
      (bucle_reintentos fuel p s i d).2.1 = 10 ∧
      (bucle_reintentos fuel p s i d).2.2 = d + 2 * fuel ∧
      es_pregunta_valida (bucle_reintentos fuel p s i d).1 = false := by
  induction fuel with
  | zero =>
    intro p s i d hp hs hi
    refine ⟨by simpa [bucle_reintentos] using hi, by simp [bucle_reintentos], ?_⟩
    simpa [bucle_reintentos] using hp
  | succ n ih =>
    intro p s i d hp hs hi
    have hi10 : i < 10 := by omega
    rw [bucle_reintentos, if_pos ⟨hp, hi10⟩]
    have h := ih (s i) s (i + 1) (d + 2) (hs i) hs (by omega)
    refine ⟨h.1, ?_, h.2.2⟩
    rw [h.2.1]
    omega

/-!
## Claim theorems
-/

/-- Claim C1, counterexample. The claim says `obtener_pregunta_cache_async`
never returns a structurally invalid record, including on the fallback
path taken after a cache-take timeout. Concretely: the take times out
(`tomado = none`) and the fallback generation call receives the
non-JSON completion `"hola"`; the operation then returns the
generator's error dict, which the validator rejects. -/
theorem obtener_devuelve_invalida_contraejemplo :
    es_pregunta_valida (obtener_pregunta_cache_async none "hola") = false := rfl

/-- Claim C1, amended. `obtener_pregunta_cache_async` returns either a
validator-approved record or an error-marked record produced by the
unchecked fallback `generar_pregunta()` call: it never returns an
invalid record taken from the cache, but its fallback result is
returned without validation. -/
theorem obtener_valida_o_con_error (tomado : Option Candidato) (texto_api : String) :
    es_pregunta_valida (obtener_pregunta_cache_async tomado texto_api) = true ∨
      tiene_error (obtener_pregunta_cache_async tomado texto_api) = true := by
  cases tomado with
  | none => exact generar_valida_o_error texto_api
  | some p =>
    by_cases h : es_pregunta_valida p = true
    · left
      simp [obtener_pregunta_cache_async, h]
    · simpa [obtener_pregunta_cache_async, h] using generar_valida_o_error texto_api

/-- Claim C2, counterexample. The claim says the replenisher's insertion
is a non-blocking attempt that fails silently at capacity, discarding
the record and proceeding. In the code the insertion is a plain
blocking `pregunta_cache.put`: on a cache holding `CACHE_SIZE` records
the call blocks (`cache_put = none`), which is not the completed
unchanged-state outcome `try_put` semantics would give. -/
theorem put_no_es_try_put_contraejemplo :
    cache_put (List.replicate CACHE_SIZE registroEjemplo) registroEjemplo ≠
      some (try_put_spec (List.replicate CACHE_SIZE registroEjemplo) registroEjemplo).1 := by
  simp [cache_put, try_put_spec, CACHE_SIZE]

/-- Claim C2, amended. The replenisher inserts with a blocking `put`:
below capacity the record is appended (and the loop proceeds); at
capacity the call blocks rather than failing silently. The loop only
reaches the insertion when the cache size is below `CACHE_MIN`; at or
above that mark the iteration inserts nothing and just sleeps 2. -/
theorem put_bloqueante_caracterizacion (q : List Candidato) (x : Candidato) (g : ResultadoGen) :
    (q.length < CACHE_SIZE → cache_put q x = some (q ++ [x])) ∧
    (CACHE_SIZE ≤ q.length → cache_put q x = none) ∧
    (CACHE_MIN ≤ q.length → precargar_iteracion q g = ⟨some q, 2⟩) := by
  refine ⟨fun h => ?_, fun h => ?_, fun h => ?_⟩
  · unfold cache_put
    rw [if_pos h]
  · unfold cache_put
    rw [if_neg (Nat.not_lt.mpr h)]
  · unfold precargar_iteracion
    rw [if_neg (Nat.not_lt.mpr (le_trans (by decide) h))]

/-- Witness for the amended C2 theorem at concrete cache states. -/
theorem put_bloqueante_caracterizacion_testigo :
    cache_put [] registroEjemplo = some ([] ++ [registroEjemplo]) ∧
    cache_put (List.replicate CACHE_SIZE registroEjemplo) registroEjemplo = none ∧
    precargar_iteracion (List.replicate CACHE_SIZE registroEjemplo)
      (ResultadoGen.retorna registroEjemplo) =
      ⟨some (List.replicate CACHE_SIZE registroEjemplo), 2⟩ :=
  ⟨(put_bloqueante_caracterizacion [] registroEjemplo
      (ResultadoGen.retorna registroEjemplo)).1 (by decide),
   (put_bloqueante_caracterizacion (List.replicate CACHE_SIZE registroEjemplo) registroEjemplo
      (ResultadoGen.retorna registroEjemplo)).2.1 (by simp),
   (put_bloqueante_caracterizacion (List.replicate CACHE_SIZE registroEjemplo) registroEjemplo
      (ResultadoGen.retorna registroEjemplo)).2.2 (by simp [CACHE_MIN, CACHE_SIZE])⟩

/-- Claim C3. `es_pregunta_valida` accepts exactly the well-formed
dicts with no error marker, truthy (present and non-empty) `pregunta`,
`codigo` and `respuesta_correcta`, and `respuestas` a list of exactly
4 entries; everything else — non-dicts included — is rejected. -/
theorem es_pregunta_valida_caracterizacion (c : Candidato) :
    es_pregunta_valida c = true ↔
      ∃ cs, c = Candidato.dict cs ∧ cs.error = none ∧
        campoTruthy cs.pregunta = true ∧ campoTruthy cs.codigo = true ∧
        campoTruthy cs.respuesta_correcta = true ∧
        ∃ l, cs.respuestas = some (ValorJson.arr l) ∧ l.length = 4 := by
  cases c with
  | noDict => simp [es_pregunta_valida]
  | dict cs =>
    rw [es_pregunta_valida_dict]
    constructor
    · intro h
      simp only [Bool.and_eq_true] at h
      obtain ⟨⟨⟨⟨⟨he, hp⟩, hc⟩, hr⟩, hrc⟩, h4⟩ := h
      refine ⟨cs, rfl, ?_, hp, hc, hrc, (respuestasListaDe4_iff cs.respuestas).mp h4⟩
      cases herr : cs.error with
      | none => rfl
      | some v => rw [herr] at he; simp at he
    · rintro ⟨cs2, heq, herr, hp, hc, hrc, l, hrl, hl⟩
      obtain rfl : cs = cs2 := by injection heq
      simp only [Bool.and_eq_true]
      refine ⟨⟨⟨⟨⟨?_, hp⟩, hc⟩, ?_⟩, hrc⟩, ?_⟩
      · rw [herr]; rfl
      · rw [hrl]; exact campoTruthy_arr_cuatro l hl
      · exact (respuestasListaDe4_iff cs.respuestas).mpr ⟨l, hrl, hl⟩

/-- Claim C4, counterexample. The record `camposSinMembresia` has
`respuesta_correcta = "z"` and options `["a","b","c","d"]`: the
validator accepts it although the correct answer matches no option
even after trimming, so acceptance does not imply the membership
invariant the claim states. -/
theorem validador_acepta_sin_membresia_contraejemplo :
    es_pregunta_valida (Candidato.dict camposSinMembresia) = true ∧
      respuesta_en_opciones camposSinMembresia = false := ⟨rfl, rfl⟩

/-- Claim C4, amended. The validator performs no membership check:
there are records it accepts whose `respuesta_correcta` differs from
every entry of `respuestas` even after trimming surrounding whitespace
on both sides. -/
theorem validador_no_garantiza_membresia :
    ∃ cs : Campos, es_pregunta_valida (Candidato.dict cs) = true ∧
      respuesta_en_opciones cs = false :=
  ⟨camposSinMembresia, rfl, rfl⟩

/-- Claim C5, counterexample. When the initial obtain and every retried
obtain deliver invalid records, the handler performs 11 obtain calls in
total (1 initial + 10 loop iterations), so after receiving 10
consecutive invalid records it does attempt an 11th time, contradicting
the claimed bound of at most 10 attempts in total. -/
theorem reintentos_once_llamadas_contraejemplo :
    llamadas_totales preguntaInvalida (fun _ => preguntaInvalida) = 11 ∧
      ¬ llamadas_totales preguntaInvalida (fun _ => preguntaInvalida) ≤ 10 := by
  decide

/-- Claim C5, amended. On consecutive invalid records the handler makes
one initial obtain plus exactly 10 retries — 11 obtain calls in total —
with a 2-time-unit pause before each retry (20 units in all), and then
redirects to the error page as the terminal failure instead of
retrying further. -/
theorem bucle_reintentos_tope (primera : Candidato) (siguiente : Nat → Candidato)
    (h1 : es_pregunta_valida primera = false)
    (h2 : ∀ j, es_pregunta_valida (siguiente j) = false) :
    llamadas_totales primera siguiente = 11 ∧
    dormido_total primera siguiente = 20 ∧
    resultado_quiz primera siguiente = RespuestaQuiz.redireccion_error := by
  obtain ⟨ha, hb, hc⟩ := bucle_todo_invalido 10 primera siguiente 0 0 h1 h2 rfl
  refine ⟨?_, ?_, ?_⟩
  · unfold llamadas_totales obtener_con_reintentos
    omega
  · unfold dormido_total obtener_con_reintentos
    omega
  · unfold resultado_quiz obtener_con_reintentos
    simp [hc]

/-- Witness for the amended C5 theorem: a source of persistently
invalid records exhausts the full retry budget. -/
theorem bucle_reintentos_tope_testigo :
    llamadas_totales preguntaInvalida (fun _ => preguntaInvalida) = 11 ∧
    dormido_total preguntaInvalida (fun _ => preguntaInvalida) = 20 ∧
    resultado_quiz preguntaInvalida (fun _ => preguntaInvalida) =
      RespuestaQuiz.redireccion_error :=
  bucle_reintentos_tope preguntaInvalida (fun _ => preguntaInvalida) rfl (fun _ => rfl)

/-- Claim C6. In a replenisher iteration below the low-water mark, a
raised generation failure whose message contains `RESOURCE_EXHAUSTED`
is followed by a 35-unit sleep; any other failure message is followed
by a 5-unit sleep. -/
theorem seleccion_backoff (q : List Candidato) (msg : String) (h : q.length < CACHE_MIN) :
    (contiene_marcador msg = true →
      (precargar_iteracion q (ResultadoGen.excepcion msg)).dormir = 35) ∧
    (contiene_marcador msg = false →
      (precargar_iteracion q (ResultadoGen.excepcion msg)).dormir = 5) := by
  unfold precargar_iteracion
  rw [if_pos h]
  constructor
  · intro hm; simp [hm]
  · intro hm; simp [hm]

/-- Witness for C6: a quota-exhaustion message sleeps 35, another
message sleeps 5, on an empty (below-mark) cache. -/
theorem seleccion_backoff_testigo :
    (precargar_iteracion [] (ResultadoGen.excepcion "429 RESOURCE_EXHAUSTED: quota")).dormir = 35 ∧
    (precargar_iteracion [] (ResultadoGen.excepcion "se agotó el tiempo")).dormir = 5 :=
  ⟨(seleccion_backoff [] "429 RESOURCE_EXHAUSTED: quota" (by decide)).1 (by decide),
   (seleccion_backoff [] "se agotó el tiempo" (by decide)).2 (by decide)⟩

/-- Claim C7. Starting within capacity, any sequence of insertion
attempts leaves at most `CACHE_SIZE = 200` resident records; at
capacity a further attempt neither inserts nor evicts (the state is
unchanged) and the blocking `put` does not complete. -/
theorem limite_capacidad_cache (q xs : List Candidato) (x : Candidato)
    (h : q.length ≤ CACHE_SIZE) :
    (List.foldl put_intento q xs).length ≤ CACHE_SIZE ∧
    (q.length = CACHE_SIZE → put_intento q x = q ∧ cache_put q x = none) := by
  refine ⟨foldl_put_intento xs q h, fun hfull => ?_⟩
  have hnlt : ¬ q.length < CACHE_SIZE := by omega
  constructor
  · unfold put_intento cache_put
    rw [if_neg hnlt]
  · unfold cache_put
    rw [if_neg hnlt]

/-- Witness for C7 at a full cache of 200 records. -/
theorem limite_capacidad_cache_testigo :
    (List.foldl put_intento (List.replicate CACHE_SIZE registroEjemplo)
      [registroEjemplo]).length ≤ CACHE_SIZE ∧
    (put_intento (List.replicate CACHE_SIZE registroEjemplo) registroEjemplo =
        List.replicate CACHE_SIZE registroEjemplo ∧
      cache_put (List.replicate CACHE_SIZE registroEjemplo) registroEjemplo = none) :=
  ⟨(limite_capacidad_cache (List.replicate CACHE_SIZE registroEjemplo) [registroEjemplo]
      registroEjemplo (by decide)).1,
   (limite_capacidad_cache (List.replicate CACHE_SIZE registroEjemplo) [registroEjemplo]
      registroEjemplo (by decide)).2 (by decide)⟩

/-- Claim C8. The spec's end-to-end example: the fenced completion text
parses to the expected record, whose `respuesta_correcta` is `"2"` and
whose `respuestas` are `["1","2","3","4"]`, and the validator accepts
it. -/
theorem ejemplo_extremo_a_extremo :
    generar_pregunta texto_ejemplo = Candidato.dict pregunta_ejemplo ∧
    pregunta_ejemplo.respuesta_correcta = some (ValorJson.str "2") ∧
    pregunta_ejemplo.respuestas =
      some (ValorJson.arr
        [ValorJson.str "1", ValorJson.str "2", ValorJson.str "3", ValorJson.str "4"]) ∧
    es_pregunta_valida (generar_pregunta texto_ejemplo) = true :=
  ⟨rfl, rfl, rfl, rfl⟩

/-- Claim C9. For every completion text, a generator result without the
error marker is validator-approved: the generator validates internally
and converts every structurally deficient parse into an error-marked
record. -/
theorem generador_valida_internamente (texto_api : String)
    (h : tiene_error (generar_pregunta texto_api) = false) :
    es_pregunta_valida (generar_pregunta texto_api) = true := by
  rcases generar_valida_o_error texto_api with hv | he
  · exact hv
  · simp [he] at h

/-- Witness for C9: a well-formed completion text yields an unmarked,
validator-approved record. -/
theorem generador_valida_internamente_testigo :
    es_pregunta_valida (generar_pregunta texto_valido) = true :=
  generador_valida_internamente texto_valido rfl

/-- Claim C10. The validator's verdict does not depend on the
`explicacion` field: two dicts agreeing on the error marker and on the
four required fields receive the same verdict whatever their
explanations are, including an absent one (`none`). -/
theorem validador_ignora_explicacion (e : Option String) (p c r rc : Option ValorJson)
    (d t : Option String) (x1 x2 : Option ValorJson) :
    es_pregunta_valida (Candidato.dict ⟨e, p, c, r, rc, x1, d, t⟩) =
      es_pregunta_valida (Candidato.dict ⟨e, p, c, r, rc, x2, d, t⟩) := rfl
